import Mathlib

/-!
Verification development for the STREAMLINE pipeline's orchestration and
job-scheduling layer.

The definitions below are a shallow embedding of the Python sources:

* `streamline/utils/runners.py` — the worker-budget resolution (`num_cores`)
  and the wave executor (`run_jobs` / `sub_jobs`);
* `run_osa.py` — the top-level phase driver, modelled as an event trace;
* `streamline/utils/dataset.py` — `Dataset.load_data` and its
  configuration errors;
* `streamline/featurefns/importance.py` — `FeatureImportance.run`,
  modelled as the ordered list of file writes it performs, with the opaque
  numeric payloads (scores, pickles, elapsed time) supplied as oracle
  strings;
* `streamline/dataprep/exploratory_analysis.py` — the `EDAJob` constructor
  validation and `save_runtime`;
* `streamline/postanalysis/model_replicate.py` — `ReplicateJob.__init__`
  algorithm exclusion, `impute_rep_data`, and the completion-marker write.

File paths are represented by the list of path segments that the Python
code joins with `'/'` (an opaque string such as an experiment root counts
as a single segment): the sources build each path by concatenating these
segments with `'/'` separators, and the segment list records exactly that
structure.

Machine floats (elapsed wall-clock time, feature scores) and the contents
of csv/pickle payloads are not modelled: they enter as opaque oracle
strings, since no claim depends on their numeric value.
-/

namespace Streamline

/-! ### Python helpers -/

/-- Python `lst[-k]` (negative indexing): defined when `1 ≤ k ≤ len`,
otherwise an `IndexError`, represented by `none`. -/
def pyIdxNeg {α : Type} (l : List α) (k : Nat) : Option α :=
  if 1 ≤ k ∧ k ≤ l.length then l.get? (l.length - k) else none

/-- Python truthiness of an optional string (`if x:`): `None` and the
empty string are falsy, every other string is truthy. -/
def truthy : Option String → Bool
  | none => false
  | some s => !(s == "")

/-- Python `str.split(sep)` on the character list, for the
single-character separators (`'/'`, `'.'`, `'_'`) the sources use:
consecutive separators yield empty fields and a string without the
separator yields one field.  Structurally recursive, so concrete values
evaluate inside proofs. -/
def splitChars (sep : Char) : List Char → List (List Char)
  | [] => [[]]
  | c :: cs =>
    if c = sep then [] :: splitChars sep cs
    else
      match splitChars sep cs with
      | [] => [[c]]
      | f :: rest => (c :: f) :: rest

/-- Python `str.split(sep)` for a one-character separator. -/
def pySplit (s : String) (sep : Char) : List String :=
  (splitChars sep s.data).map (fun cs => String.mk cs)

/-! ### streamline/utils/runners.py -/

/-- A Python value as it matters here: `os.environ.get` yields a `str`,
`multiprocessing.cpu_count()` an `int`. -/
inductive PyVal where
  | str (s : String)
  | int (n : Nat)
deriving DecidableEq, Repr

/-- Python exceptions the embedded code can raise. -/
inductive PyError where
  | typeError (msg : String)
  | valueError (msg : String)
  | assertionError
  | exception (msg : String)
deriving DecidableEq, Repr

/-- Module-level `num_cores` of runners.py:
`os.environ.get('SLURM_CPUS_PER_TASK', None)` (a string when the variable
is present), falling back to `multiprocessing.cpu_count()` (an int) when
absent. No conversion of the environment string is performed. -/
def num_cores (slurmCpusPerTask : Option String) (cpuCount : Nat) : PyVal :=
  match slurmCpusPerTask with
  | some s => PyVal.str s
  | none => PyVal.int cpuCount

/-- Python `range(0, stop, step)` for an integer `step > 0`. -/
def rangeList (stop step : Nat) : List Nat :=
  List.range' 0 ((stop + step - 1) / step) step

/-- The wave decomposition performed by `run_jobs`:
`for i in range(0, len(job_list), W): sub_jobs(job_list[i:i + W])`.
Wave at start index `i` is the slice `job_list[i : i + W]`. -/
def run_jobs {α : Type} (W : Nat) (job_list : List α) : List (List α) :=
  (rangeList job_list.length W).map fun i => (job_list.drop i).take W

/-- The `run_jobs` call as Python executes it with the module-level
`num_cores` value: `range` raises `TypeError` when its step is a `str`,
and `ValueError` when the step is zero. -/
def run_jobs_py {α : Type} (cores : PyVal) (job_list : List α) :
    Except PyError (List (List α)) :=
  match cores with
  | PyVal.str _ =>
      Except.error (PyError.typeError "str object cannot be interpreted as an integer")
  | PyVal.int 0 =>
      Except.error (PyError.valueError "range arg 3 must not be zero")
  | PyVal.int (w + 1) => Except.ok (run_jobs (w + 1) job_list)

/-! ### Wave-partition lemmas for `run_jobs` -/

theorem rangeList_nil (step : Nat) (h : 1 ≤ step) : rangeList 0 step = [] := by
  unfold rangeList
  have : (0 + step - 1) / step = 0 := by
    apply Nat.div_eq_of_lt
    omega
  rw [this]
  rfl

theorem rangeList_count_pos (stop step : Nat) (hstop : 1 ≤ stop) (hstep : 1 ≤ step) :
    (stop + step - 1) / step = (stop - step + step - 1) / step + 1 := by
  rcases le_or_lt stop step with hle | hlt
  · have h1 : stop - step = 0 := by omega
    have h2 : (stop + step - 1) / step = 1 := by
      apply Nat.div_eq_of_lt_le <;> omega
    have h3 : (0 + step - 1) / step = 0 := by
      apply Nat.div_eq_of_lt
      omega
    rw [h1, h2, h3]
  · have h1 : stop + step - 1 = (stop - step + step - 1) + step := by omega
    rw [h1, Nat.add_div_right _ (by omega)]

theorem map_range'_shift {β : Type} (step : Nat) :
    ∀ (k : Nat) (f : Nat → β) (s : Nat),
      (List.range' s k step).map f = (List.range' 0 k step).map (fun i => f (s + i)) := by
  intro k
  induction k with
  | zero => intro f s; rfl
  | succ n ih =>
    intro f s
    rw [List.range'_succ, List.range'_succ]
    simp only [List.map_cons, Nat.zero_add, Nat.add_zero]
    rw [ih f (s + step), ih (fun i => f (s + i)) step]
    congr 1
    apply List.map_congr_left
    intro i _
    congr 1
    omega

theorem run_jobs_cons {α : Type} (W : Nat) (hW : 1 ≤ W) (l : List α) (hl : l ≠ []) :
    run_jobs W l = l.take W :: run_jobs W (l.drop W) := by
  have hlen : 1 ≤ l.length := List.length_pos.mpr hl
  show (rangeList l.length W).map (fun i => (l.drop i).take W)
      = l.take W :: (rangeList (l.drop W).length W).map (fun i => ((l.drop W).drop i).take W)
  rw [List.length_drop]
  unfold rangeList
  rw [rangeList_count_pos l.length W hlen hW, List.range'_succ]
  rw [List.map_cons, List.drop_zero]
  congr 1
  rw [map_range'_shift]
  apply List.map_congr_left
  intro i _
  rw [List.drop_drop]
  have harg : 0 + W + i = i + W := by omega
  rw [harg, Nat.add_comm i W]

theorem run_jobs_nil {α : Type} (W : Nat) (hW : 1 ≤ W) :
    run_jobs W ([] : List α) = [] := by
  simp [run_jobs, rangeList_nil W hW]

theorem run_jobs_join_aux {α : Type} (W : Nat) (hW : 1 ≤ W) :
    ∀ n : Nat, ∀ l : List α, l.length ≤ n → (run_jobs W l).flatten = l := by
  intro n
  induction n with
  | zero =>
    intro l hlen
    have : l = [] := List.eq_nil_of_length_eq_zero (Nat.le_zero.mp hlen)
    rw [this, run_jobs_nil W hW]
    rfl
  | succ m ih =>
    intro l hlen
    cases hnil : l with
    | nil =>
      rw [run_jobs_nil W hW]
      rfl
    | cons a t =>
      rw [← hnil, run_jobs_cons W hW l (by rw [hnil]; simp)]
      rw [List.flatten_cons, ih (l.drop W) (by rw [List.length_drop]; omega)]
      exact List.take_append_drop W l

theorem run_jobs_flatten {α : Type} (W : Nat) (hW : 1 ≤ W) (l : List α) :
    (run_jobs W l).flatten = l :=
  run_jobs_join_aux W hW l.length l (Nat.le_refl _)

theorem run_jobs_size_le {α : Type} (W : Nat) (l : List α) :
    ∀ w ∈ run_jobs W l, w.length ≤ W := by
  intro w hw
  unfold run_jobs at hw
  rcases List.mem_map.mp hw with ⟨i, _, rfl⟩
  calc ((l.drop i).take W).length ≤ W := List.length_take_le W _

theorem run_jobs_get {α : Type} (W : Nat) (l : List α) (k : Nat)
    (hk : k < (run_jobs W l).length) :
    (run_jobs W l).get ⟨k, hk⟩ = (l.drop (k * W)).take W := by
  simp only [run_jobs, rangeList, List.get_eq_getElem, List.getElem_map]
  rw [List.getElem_range']
  rw [Nat.zero_add, Nat.mul_comm]

/-- C1: for every job list and positive worker budget `W`, `run_jobs`
partitions the list into consecutive waves preserving input order: wave
`k` is the slice `job_list[k*W : k*W + W]`, every wave has size at most
`W`, and the concatenation of all waves reproduces the input list. -/
theorem run_jobs_wave_partition {α : Type} (W : Nat) (hW : 0 < W) (job_list : List α) :
    (∀ k (hk : k < (run_jobs W job_list).length),
        (run_jobs W job_list).get ⟨k, hk⟩ = (job_list.drop (k * W)).take W)
    ∧ (∀ w ∈ run_jobs W job_list, w.length ≤ W)
    ∧ (run_jobs W job_list).flatten = job_list :=
  ⟨fun k hk => run_jobs_get W job_list k hk,
   run_jobs_size_le W job_list,
   run_jobs_flatten W hW job_list⟩

/-- Witness for C1 at a concrete input: budget 2, five jobs. -/
theorem run_jobs_wave_partition_witness :
    (run_jobs 2 [10, 20, 30, 40, 50]).flatten = [10, 20, 30, 40, 50] :=
  (run_jobs_wave_partition 2 (by decide) [10, 20, 30, 40, 50]).2.2

/-- C5 (code bug): runners.py never converts the environment string to an
int, so with `SLURM_CPUS_PER_TASK` present `num_cores` is a `str` and
`range(0, len(job_list), num_cores)` raises `TypeError`; only with the
variable absent (cpu-count fallback) does `run_jobs` partition the list
into waves. -/
theorem num_cores_env_string_type_error :
    run_jobs_py (num_cores (some "4") 8) [1, 2, 3, 4, 5]
      = Except.error (PyError.typeError "str object cannot be interpreted as an integer")
    ∧ run_jobs_py (num_cores none 4) [1, 2, 3, 4, 5]
      = Except.ok [[1, 2, 3, 4], [5]] :=
  ⟨rfl, rfl⟩

/-! ### run_osa.py — the phase driver as an event trace

The driver's scheduling behaviour is modelled as the sequence of events
the parent process observes.  A job's execution lies between its `start`
and `join` events, since `multiprocessing` `join` blocks until the child
has terminated. -/

/-- Scheduling events of the driver process: constructing a phase's
runner object, `job.start()`, `job.join()`, and the phase's `run` call
returning.  Every event carries the ordinal of the phase it belongs to. -/
inductive Event (J : Type) where
  | construct (phase : Nat)
  | start (phase : Nat) (j : J)
  | join (phase : Nat) (j : J)
  | runReturn (phase : Nat)
deriving DecidableEq, Repr

/-- The phase an event belongs to. -/
def Event.phase {J : Type} : Event J → Nat
  | Event.construct p => p
  | Event.start p _ => p
  | Event.join p _ => p
  | Event.runReturn p => p

/-- Trace of `sub_jobs` (runners.py): every job of the wave is started,
then every job of the wave is joined. -/
def sub_jobs {J : Type} (phase : Nat) (wave : List J) : List (Event J) :=
  wave.map (Event.start phase) ++ wave.map (Event.join phase)

/-- Trace of `run_jobs` on a phase's job list: the `sub_jobs` traces of
its waves, in wave order. -/
def run_jobs_trace {J : Type} (W : Nat) (phase : Nat) (jobs : List J) : List (Event J) :=
  ((run_jobs W jobs).map (sub_jobs phase)).flatten

/-- Modelled from the spec: the phase runner classes (EDARunner,
DataProcessRunner, FeatureImportanceRunner, ..., whose sources are not
among the provided files) each expose a `run` method that builds the
phase's job list and executes it with `run_jobs` — the
ChunkedParallelExecutor contract of the spec. -/
def phase_runner_run {J : Type} (W : Nat) (phase : Nat) (jobs : List J) : List (Event J) :=
  run_jobs_trace W phase jobs

/-- The driver's per-phase step in `run_osa.py`: the runner object is
constructed, then `run(obj, phase_str)` calls `obj.run(...)` and returns
before the driver moves on. -/
def run_phase {J : Type} (W : Nat) (phase : Nat) (jobs : List J) : List (Event J) :=
  Event.construct phase :: (phase_runner_run W phase jobs ++ [Event.runReturn phase])

/-- The driver's phases executed in order, numbering them from `i`. -/
def phases_trace {J : Type} (W : Nat) : Nat → List (List J) → List (Event J)
  | _, [] => []
  | i, jobs :: rest => run_phase W i jobs ++ phases_trace W (i + 1) rest

/-- The `__main__` block of `run_osa.py`: eight phase runners constructed
and run strictly in sequence (Exploratory, Data Process, Feature
Importance, Feature Selection, Modelling, Stats, Dataset Compare,
Reporting), each over its own job list. -/
def run_osa_trace {J : Type} (W : Nat)
    (eda dpr fimp fsel model stats compare report : List J) : List (Event J) :=
  phases_trace W 0 [eda, dpr, fimp, fsel, model, stats, compare, report]

theorem phase_of_mem_run_phase {J : Type} (W i : Nat) (jobs : List J) :
    ∀ e ∈ run_phase W i jobs, e.phase = i := by
  intro e he
  simp only [run_phase, phase_runner_run, run_jobs_trace, sub_jobs] at he
  rcases List.mem_cons.mp he with rfl | he'
  · rfl
  rcases List.mem_append.mp he' with hmem | hmem
  · rcases List.mem_flatten.mp hmem with ⟨evs, hevs, hmem2⟩
    rcases List.mem_map.mp hevs with ⟨wave, _, rfl⟩
    rcases List.mem_append.mp hmem2 with hmem3 | hmem3 <;>
      rcases List.mem_map.mp hmem3 with ⟨j, _, rfl⟩ <;> rfl
  · rcases List.mem_singleton.mp hmem with rfl
    rfl

theorem phase_ge_of_mem_phases_trace {J : Type} (W : Nat) :
    ∀ (ls : List (List J)) (i : Nat), ∀ e ∈ phases_trace W i ls, i ≤ e.phase := by
  intro ls
  induction ls with
  | nil => intro i e he; simp [phases_trace] at he
  | cons jobs rest ih =>
    intro i e he
    rcases List.mem_append.mp he with h | h
    · exact Nat.le_of_eq (phase_of_mem_run_phase W i jobs e h).symm
    · exact Nat.le_of_succ_le (ih (i + 1) e h)

theorem phases_trace_pairwise {J : Type} (W : Nat) :
    ∀ (ls : List (List J)) (i : Nat),
      (phases_trace W i ls).Pairwise (fun a b => a.phase ≤ b.phase) := by
  intro ls
  induction ls with
  | nil => intro i; exact List.Pairwise.nil
  | cons jobs rest ih =>
    intro i
    refine List.pairwise_append.mpr ⟨?_, ih (i + 1), ?_⟩
    · apply List.pairwise_of_forall_mem_list
      intro a ha b hb
      rw [phase_of_mem_run_phase W i jobs a ha, phase_of_mem_run_phase W i jobs b hb]
    · intro a ha b hb
      rw [phase_of_mem_run_phase W i jobs a ha]
      exact Nat.le_of_succ_le (phase_ge_of_mem_phases_trace W rest (i + 1) b hb)

/-- C2: in every run of the top-level driver, the trace of scheduling
events is ordered by phase: an event of a later phase (constructing its
runner, starting or joining one of its jobs, its run returning) occurs
strictly after every event of every earlier phase.  In particular no
phase-(i+1) work is constructed or started while any phase-i job is
still running, since a job runs between its start and join events. -/
theorem run_osa_phase_order {J : Type} (W : Nat)
    (eda dpr fimp fsel model stats compare report : List J)
    (p q : Nat)
    (hp : p < (run_osa_trace W eda dpr fimp fsel model stats compare report).length)
    (hq : q < (run_osa_trace W eda dpr fimp fsel model stats compare report).length)
    (hlt : ((run_osa_trace W eda dpr fimp fsel model stats compare report).get ⟨p, hp⟩).phase
         < ((run_osa_trace W eda dpr fimp fsel model stats compare report).get ⟨q, hq⟩).phase) :
    p < q := by
  by_contra hnot
  have hqp : q ≤ p := Nat.le_of_not_lt hnot
  rcases Nat.lt_or_ge q p with hq_lt | hq_ge
  · have hpair := (List.pairwise_iff_get.mp
      (phases_trace_pairwise W [eda, dpr, fimp, fsel, model, stats, compare, report] 0))
      ⟨q, hq⟩ ⟨p, hp⟩ hq_lt
    exact absurd hlt (Nat.not_lt.mpr hpair)
  · have : p = q := Nat.le_antisymm hq_ge hqp
    subst this
    exact absurd hlt (Nat.lt_irrefl _)

/-- Witness for C2 at concrete input: one job per phase, budget 1; the
first event (constructing the Exploratory runner) precedes the last
(the Reporting run returning). -/
theorem run_osa_phase_order_witness : (0 : Nat) < 31 :=
  run_osa_phase_order 1 [0] [0] [0] [0] [0] [0] [0] [0] 0 31
    (by decide) (by decide) (by decide)

/-! ### streamline/utils/dataset.py -/

/-- Python `lst[-1]` for the (never empty) result of `str.split`. -/
def pyLast (l : List String) : String := (pyIdxNeg l 1).getD ""

/-- Constructor arguments of `Dataset`. -/
structure DatasetCfg where
  dataset_path : String
  class_label : String
  match_label : Option String
  instance_label : Option String
deriving Repr

/-- Dataset field `name`: `self.path.split('/')[-1].split('.')[0]`. -/
def Dataset.name (path : String) : String :=
  (pySplit (pyLast (pySplit path '/')) '.').headD ""

/-- Dataset field `format`: `self.path.split('/')[-1].split('.')[-1]`. -/
def Dataset.format (path : String) : String :=
  pyLast (pySplit (pyLast (pySplit path '/')) '.')

/-- The embedding of `Dataset.load_data`.  The tabular file's column list
is the oracle `columns` (the pandas read is opaque); on success the
loaded columns become the dataset's data, on a raise nothing is stored.
The `match_label`/`instance_label` guards use Python truthiness, exactly
as `if self.match_label and not (...)` does. -/
def Dataset.load_data (cfg : DatasetCfg) (columns : List String) :
    Except String (List String) :=
  let fmt := Dataset.format cfg.dataset_path
  if fmt = "csv" ∨ fmt = "tsv" ∨ fmt = "txt" then
    if cfg.class_label ∈ columns then
      if truthy cfg.match_label = true ∧ cfg.match_label.getD "" ∉ columns then
        Except.error "Match label not found in file"
      else if truthy cfg.instance_label = true ∧ cfg.instance_label.getD "" ∉ columns then
        Except.error "Instance label not found in file"
      else Except.ok columns
    else Except.error "Class label not found in file"
  else Except.error "Unknown file format"

/-- The three missing-label messages `load_data` can raise. -/
def missing_label_errors : List String :=
  ["Class label not found in file", "Match label not found in file",
   "Instance label not found in file"]

theorem truthy_spec (o : Option String) (h : o ≠ some "") (cols : List String) :
    (truthy o = true ∧ o.getD "" ∉ cols) ↔ (∃ m, o = some m ∧ m ∉ cols) := by
  cases o with
  | none => simp [truthy]
  | some s =>
    have hs : s ≠ "" := fun h' => h (by rw [h'])
    simp [truthy, hs]

/-- C6: dataset construction fails before any job work exactly when the
input is malconfigured.  With labels that are not the empty string (the
Python truthiness guard and "specified" then coincide): the format error
is raised iff the extension is none of csv/tsv/txt; given a known
format, a missing-label error is raised iff the class label, a specified
match label, or a specified instance label is absent from the loaded
columns; and on any error no data is made available. -/
theorem load_data_config_errors (cfg : DatasetCfg) (columns : List String)
    (hml : cfg.match_label ≠ some "") (hil : cfg.instance_label ≠ some "") :
    (Dataset.load_data cfg columns = Except.error "Unknown file format"
        ↔ Dataset.format cfg.dataset_path ∉ (["csv", "tsv", "txt"] : List String))
    ∧ (Dataset.format cfg.dataset_path ∈ (["csv", "tsv", "txt"] : List String) →
        ((∃ e, Dataset.load_data cfg columns = Except.error e ∧ e ∈ missing_label_errors)
          ↔ (cfg.class_label ∉ columns
              ∨ (∃ m, cfg.match_label = some m ∧ m ∉ columns)
              ∨ (∃ i, cfg.instance_label = some i ∧ i ∉ columns))))
    ∧ (∀ e, Dataset.load_data cfg columns = Except.error e →
        ∀ d, Dataset.load_data cfg columns ≠ Except.ok d) := by
  have hC := truthy_spec cfg.match_label hml columns
  have hI := truthy_spec cfg.instance_label hil columns
  have hmem : (Dataset.format cfg.dataset_path ∈ (["csv", "tsv", "txt"] : List String))
      ↔ (Dataset.format cfg.dataset_path = "csv" ∨ Dataset.format cfg.dataset_path = "tsv"
          ∨ Dataset.format cfg.dataset_path = "txt") := by
    simp
  by_cases hA : Dataset.format cfg.dataset_path = "csv"
      ∨ Dataset.format cfg.dataset_path = "tsv" ∨ Dataset.format cfg.dataset_path = "txt"
  · by_cases hB : cfg.class_label ∈ columns
    · by_cases hCc : truthy cfg.match_label = true ∧ cfg.match_label.getD "" ∉ columns
      · simp [Dataset.load_data, hA, hB, hCc, hmem, missing_label_errors, ← hC, ← hI]
      · by_cases hDd : truthy cfg.instance_label = true
            ∧ cfg.instance_label.getD "" ∉ columns
        · simp [Dataset.load_data, hA, hB, hCc, hDd, hmem, missing_label_errors,
            ← hC, ← hI]
        · simp [Dataset.load_data, hA, hB, hCc, hDd, hmem, missing_label_errors,
            ← hC, ← hI]
    · simp [Dataset.load_data, hA, hB, hmem, missing_label_errors, ← hC, ← hI]
  · simp [Dataset.load_data, hA, hmem, missing_label_errors]

/-- Witness for C6 at a concrete input: an xlsx path is rejected as an
unknown file format. -/
theorem load_data_config_errors_witness :
    Dataset.load_data ⟨"data/foo.xlsx", "Class", none, none⟩ ["Class"]
      = Except.error "Unknown file format" :=
  (load_data_config_errors ⟨"data/foo.xlsx", "Class", none, none⟩ ["Class"]
    (by decide) (by decide)).1.mpr (by decide)

/-! ### File writes

The sources build each file path by concatenating segments with `'/'`;
a write is recorded as that segment list plus the contents written. -/

/-- A durable file write: the path as the list of segments the source
joins with `'/'` (an opaque root such as the experiment path counts as
one segment), and the full contents written. -/
structure FileWrite where
  path : List String
  content : String
deriving DecidableEq, Repr

/-- Whether a write lands in the completion ledger directory
`<experimentRoot>/jobsCompleted/`. -/
def inJobsCompleted (experiment_path : String) (w : FileWrite) : Bool :=
  match w.path with
  | [root, dir, _] => root == experiment_path && dir == "jobsCompleted"
  | _ => false

/-- Whether a write lands in `<experimentRoot>/<datasetName>/runtime/`. -/
def inRuntimeDir (experiment_path dataset_name : String) (w : FileWrite) : Bool :=
  match w.path with
  | [root, d, r, _] => root == experiment_path && d == dataset_name && r == "runtime"
  | _ => false

/-! ### streamline/featurefns/importance.py -/

/-- Constructor fields of `FeatureImportance`. -/
structure FeatureImportance where
  cv_train_path : String
  experiment_path : String
  class_label : String
  instance_label : Option String
  instance_subset : Nat
deriving Repr

/-- From `prepare_data`: `self.dataset.name = cv_train_path.split('/')[-3]`. -/
def FeatureImportance.dataset_name (fi : FeatureImportance) : Option String :=
  pyIdxNeg (pySplit fi.cv_train_path '/') 3

/-- From `prepare_data`:
`self.cv_count = cv_train_path.split('/')[-1].split("_")[-2]`. -/
def FeatureImportance.cv_count (fi : FeatureImportance) : Option String :=
  pyIdxNeg (pySplit (pyLast (pySplit fi.cv_train_path '/')) '_') 2

/-- The `alg_name` the selected branch of `run` assigns:
`"mutual_information"` for `'MI'`, `"multisurf"` for `'MS'`. -/
def alg_tag (algorithm : String) : String :=
  if algorithm = "MI" then "mutual_information" else "multisurf"

/-- Score csv path of `run_mutual_information` / `run_multi_surf`:
`<exp>/<name>/feature_selection/<alg>/<alg>_scores_cv_<cv>.csv`. -/
def FeatureImportance.output_path (fi : FeatureImportance)
    (alg_name dname cvc : String) : List String :=
  [fi.experiment_path, dname, "feature_selection", alg_name,
   alg_name ++ "_scores_cv_" ++ cvc ++ ".csv"]

/-- Pickle path of `pickle_scores`:
`<exp>/<name>/feature_selection/<alg>/pickledForPhase4/<cv>.pickle`. -/
def FeatureImportance.pickle_path (fi : FeatureImportance)
    (alg_name dname cvc : String) : List String :=
  [fi.experiment_path, dname, "feature_selection", alg_name,
   "pickledForPhase4", cvc ++ ".pickle"]

/-- Runtime path of `save_runtime`:
`<exp>/<name>/runtime/runtime_<alg>_CV_<cv>.txt`. -/
def FeatureImportance.runtime_path (fi : FeatureImportance)
    (alg_name dname cvc : String) : List String :=
  [fi.experiment_path, dname, "runtime",
   "runtime_" ++ alg_name ++ "_CV_" ++ cvc ++ ".txt"]

/-- Completion marker path written at the end of `run`:
`<exp>/jobsCompleted/job_<alg>_<dataset>_<cv>.txt`. -/
def FeatureImportance.marker_path (fi : FeatureImportance)
    (alg_name dname cvc : String) : List String :=
  [fi.experiment_path, "jobsCompleted",
   "job_" ++ alg_name ++ "_" ++ dname ++ "_" ++ cvc ++ ".txt"]

/-- Outcomes and payloads of the opaque steps of `FeatureImportance.run`:
the dataset load in `prepare_data` (pandas), the scoring computation
(`mutual_info_classif` / MultiSURF), the score-dictionary loop of
`sort_save_fi_scores` (which runs before its file is opened), and the
pickle and runtime writes; plus the opaque payloads (csv rows, pickle
bytes, and `str(time.time() - self.job_start_time)`). -/
structure FIOracle where
  load_error : Option String
  score_ok : Bool
  sort_ok : Bool
  pickle_ok : Bool
  runtime_ok : Bool
  csv_content : String
  pickle_content : String
  elapsed : String
deriving Repr

/-- The embedding of `FeatureImportance.run` as the ordered list of file
writes the job performs, paired with the exception that aborted it
(`none` on success).  The steps follow the source order: `prepare_data`
(dataset load; the `[-3]`/`[-2]` path indexing can raise IndexError),
the `assert algorithm in ('MI','MS')`, the scoring computation, the
sorted score csv of `sort_save_fi_scores`, the phase-4 pickle of
`pickle_scores`, the runtime file of `save_runtime`, and — last of
all — the completion marker write. -/
def FeatureImportance.run (fi : FeatureImportance) (algorithm : String)
    (o : FIOracle) : List FileWrite × Option PyError :=
  match fi.dataset_name, fi.cv_count with
  | some dname, some cvc =>
    match o.load_error with
    | some e => ([], some (PyError.exception e))
    | none =>
      if algorithm = "MI" ∨ algorithm = "MS" then
        let alg_name := alg_tag algorithm
        if o.score_ok then
          if o.sort_ok then
            if o.pickle_ok then
              if o.runtime_ok then
                ([⟨fi.output_path alg_name dname cvc, o.csv_content⟩,
                  ⟨fi.pickle_path alg_name dname cvc, o.pickle_content⟩,
                  ⟨fi.runtime_path alg_name dname cvc, o.elapsed⟩,
                  ⟨fi.marker_path alg_name dname cvc, "complete"⟩], none)
              else
                ([⟨fi.output_path alg_name dname cvc, o.csv_content⟩,
                  ⟨fi.pickle_path alg_name dname cvc, o.pickle_content⟩],
                 some (PyError.exception "OSError"))
            else
              ([⟨fi.output_path alg_name dname cvc, o.csv_content⟩],
               some (PyError.exception "OSError"))
          else ([], some (PyError.exception "IndexError"))
        else ([], some (PyError.exception "scoring error"))
      else ([], some PyError.assertionError)
  | _, _ => ([], some (PyError.exception "IndexError"))

/-! ### streamline/postanalysis/model_replicate.py — completion marker -/

/-- The `ReplicateJob` fields the completing write depends on. -/
structure ReplicateJob where
  dataset_filename : String
  full_path : String
deriving Repr

/-- `self.apply_name = self.dataset_filename.split('/')[-1].split('.')[0]`. -/
def ReplicateJob.apply_name (r : ReplicateJob) : String :=
  (pySplit (pyLast (pySplit r.dataset_filename '/')) '.').headD ""

/-- `self.experiment_path = '/'.join(self.full_path.split('/')[:-1])`,
kept as its segment list. -/
def ReplicateJob.experiment_path_segments (r : ReplicateJob) : List String :=
  (pySplit r.full_path '/').dropLast

/-- The completing write at the end of `ReplicateJob.run`:
`<experimentRoot>/jobsCompleted/job_apply_<applyName>.txt`, payload
"complete". -/
def ReplicateJob.marker_write (r : ReplicateJob) : FileWrite :=
  ⟨r.experiment_path_segments
      ++ ["jobsCompleted", "job_apply_" ++ r.apply_name ++ ".txt"],
   "complete"⟩

/-! ### streamline/dataprep/exploratory_analysis.py — save_runtime -/

/-- The single write of `EDAJob.save_runtime` (exploratory phase):
`<experiment_path>/<dataset.name>/runtime/runtime_exploratory.txt`,
containing `str(time.time() - self.job_start_time)`. -/
def EDAJob.save_runtime_writes (experiment_path dataset_name elapsed : String) :
    List FileWrite :=
  [⟨[experiment_path, dataset_name, "runtime", "runtime_exploratory.txt"], elapsed⟩]

/-! ### Write-trace lemmas for FeatureImportance.run -/

theorem inJobsCompleted_output_path (fi : FeatureImportance) (a d f c : String) :
    inJobsCompleted fi.experiment_path ⟨fi.output_path a d f, c⟩ = false := rfl

theorem inJobsCompleted_pickle_path (fi : FeatureImportance) (a d f c : String) :
    inJobsCompleted fi.experiment_path ⟨fi.pickle_path a d f, c⟩ = false := rfl

theorem inJobsCompleted_runtime_path (fi : FeatureImportance) (a d f c : String) :
    inJobsCompleted fi.experiment_path ⟨fi.runtime_path a d f, c⟩ = false := rfl

theorem inJobsCompleted_marker_path (fi : FeatureImportance) (a d f c : String) :
    inJobsCompleted fi.experiment_path ⟨fi.marker_path a d f, c⟩ = true := by
  simp [inJobsCompleted, FeatureImportance.marker_path]

theorem inRuntimeDir_output_path (fi : FeatureImportance) (a d f c : String) :
    inRuntimeDir fi.experiment_path d ⟨fi.output_path a d f, c⟩ = false := rfl

theorem inRuntimeDir_pickle_path (fi : FeatureImportance) (a d f c : String) :
    inRuntimeDir fi.experiment_path d ⟨fi.pickle_path a d f, c⟩ = false := rfl

theorem inRuntimeDir_marker_path (fi : FeatureImportance) (a d f c : String) :
    inRuntimeDir fi.experiment_path d ⟨fi.marker_path a d f, c⟩ = false := rfl

theorem inRuntimeDir_runtime_path (fi : FeatureImportance) (a d f c : String) :
    inRuntimeDir fi.experiment_path d ⟨fi.runtime_path a d f, c⟩ = true := by
  simp [inRuntimeDir, FeatureImportance.runtime_path]

/-- Inversion for a successful `FeatureImportance.run`: the write trace
is exactly csv, pickle, runtime, marker, in that order. -/
theorem fi_run_success (fi : FeatureImportance) (algorithm : String) (o : FIOracle)
    (d f : String) (hd : fi.dataset_name = some d) (hf : fi.cv_count = some f)
    (writes : List FileWrite)
    (hrun : FeatureImportance.run fi algorithm o = (writes, none)) :
    writes = [⟨fi.output_path (alg_tag algorithm) d f, o.csv_content⟩,
              ⟨fi.pickle_path (alg_tag algorithm) d f, o.pickle_content⟩,
              ⟨fi.runtime_path (alg_tag algorithm) d f, o.elapsed⟩,
              ⟨fi.marker_path (alg_tag algorithm) d f, "complete"⟩] := by
  obtain ⟨le, sc, so, pk, rt, cc, pc, el⟩ := o
  by_cases halg : algorithm = "MI" ∨ algorithm = "MS"
  · cases le <;> cases sc <;> cases so <;> cases pk <;> cases rt <;>
      simp [FeatureImportance.run, hd, hf, halg] at hrun <;>
      simp [hrun]
  · cases le <;> simp [FeatureImportance.run, hd, hf, halg] at hrun

/-- Inversion for a raising `FeatureImportance.run`: whatever was
written before the raise, no write lands in the jobsCompleted ledger. -/
theorem fi_run_error_writes (fi : FeatureImportance) (algorithm : String) (o : FIOracle)
    (writes : List FileWrite) (e : PyError)
    (hrun : FeatureImportance.run fi algorithm o = (writes, some e)) :
    ∀ w ∈ writes, inJobsCompleted fi.experiment_path w = false := by
  obtain ⟨le, sc, so, pk, rt, cc, pc, el⟩ := o
  rcases hdn : fi.dataset_name with - | dname <;>
    rcases hcv : fi.cv_count with - | cvc <;>
    by_cases halg : algorithm = "MI" ∨ algorithm = "MS" <;>
    cases le <;> cases sc <;> cases so <;> cases pk <;> cases rt <;>
      simp [FeatureImportance.run, hdn, hcv, halg] at hrun <;>
      (obtain ⟨h1, h2⟩ := hrun
       subst h1
       simp [inJobsCompleted_output_path, inJobsCompleted_pickle_path])

/-- C3: a feature-importance job that runs to successful completion
writes exactly one file into the jobsCompleted ledger — the marker
`<exp>/jobsCompleted/job_<alg>_<dataset>_<fold>.txt` with entire payload
"complete", where `<alg>` is the branch's `alg_name` — and the
replication job's completing write is
`<exp>/jobsCompleted/job_apply_<datasetName>.txt` with the same payload. -/
theorem completion_marker_unique (fi : FeatureImportance) (algorithm : String)
    (o : FIOracle) (d f : String)
    (hd : fi.dataset_name = some d) (hf : fi.cv_count = some f)
    (writes : List FileWrite)
    (hrun : FeatureImportance.run fi algorithm o = (writes, none)) :
    writes.filter (inJobsCompleted fi.experiment_path)
        = [⟨[fi.experiment_path, "jobsCompleted",
             "job_" ++ alg_tag algorithm ++ "_" ++ d ++ "_" ++ f ++ ".txt"],
            "complete"⟩]
    ∧ (∀ fname fpath : String,
        (ReplicateJob.mk fname fpath).marker_write
          = ⟨(pySplit fpath '/').dropLast
              ++ ["jobsCompleted",
                  "job_apply_"
                    ++ (pySplit (pyLast (pySplit fname '/')) '.').headD "" ++ ".txt"],
             "complete"⟩) := by
  constructor
  · rw [fi_run_success fi algorithm o d f hd hf writes hrun]
    rw [List.filter_cons, List.filter_cons, List.filter_cons, List.filter_cons]
    rw [inJobsCompleted_output_path, inJobsCompleted_pickle_path,
      inJobsCompleted_runtime_path, inJobsCompleted_marker_path]
    rfl
  · intro fname fpath
    rfl

/-- Witness for C3 at a concrete job: MultiSURF on dataset dsA, fold 0. -/
def fi_example : FeatureImportance :=
  ⟨"exp/dsA/CVDatasets/dsA_CV_0_Train.csv", "exp", "Class", none, 2000⟩

/-- Oracle for a run in which every opaque step succeeds. -/
def fi_oracle_ok : FIOracle :=
  ⟨none, true, true, true, true, "csv-rows", "pickle-bytes", "12.5"⟩

theorem completion_marker_unique_witness :
    (FeatureImportance.run fi_example "MS" fi_oracle_ok).1.filter (inJobsCompleted "exp")
      = [⟨["exp", "jobsCompleted", "job_multisurf_dsA_0.txt"], "complete"⟩] :=
  (completion_marker_unique fi_example "MS" fi_oracle_ok "dsA" "0" rfl rfl
    (FeatureImportance.run fi_example "MS" fi_oracle_ok).1 rfl).1

/-- C4: the completion marker is the last write of every execution of
`FeatureImportance.run` — on success it follows the score csv, the
phase-4 pickle and the runtime file, and an execution that raises never
writes into the jobsCompleted ledger, so a failed job leaves no
completion record. -/
theorem fi_marker_is_last_write (fi : FeatureImportance) (algorithm : String)
    (o : FIOracle) (d f : String)
    (hd : fi.dataset_name = some d) (hf : fi.cv_count = some f) :
    (∀ writes, FeatureImportance.run fi algorithm o = (writes, none) →
        writes = [⟨fi.output_path (alg_tag algorithm) d f, o.csv_content⟩,
                  ⟨fi.pickle_path (alg_tag algorithm) d f, o.pickle_content⟩,
                  ⟨fi.runtime_path (alg_tag algorithm) d f, o.elapsed⟩,
                  ⟨fi.marker_path (alg_tag algorithm) d f, "complete"⟩]
        ∧ writes.getLast?
            = some ⟨fi.marker_path (alg_tag algorithm) d f, "complete"⟩)
    ∧ (∀ writes e, FeatureImportance.run fi algorithm o = (writes, some e) →
        ∀ w ∈ writes, inJobsCompleted fi.experiment_path w = false) := by
  constructor
  · intro writes hrun
    have h := fi_run_success fi algorithm o d f hd hf writes hrun
    refine ⟨h, ?_⟩
    rw [h]
    rfl
  · intro writes e hrun
    exact fi_run_error_writes fi algorithm o writes e hrun

theorem fi_marker_is_last_write_witness :
    (FeatureImportance.run fi_example "MS" fi_oracle_ok).1.getLast?
      = some ⟨["exp", "jobsCompleted", "job_multisurf_dsA_0.txt"], "complete"⟩ :=
  ((fi_marker_is_last_write fi_example "MS" fi_oracle_ok "dsA" "0" rfl rfl).1
    (FeatureImportance.run fi_example "MS" fi_oracle_ok).1 rfl).2

/-- C8: a completed feature-importance job writes exactly one file under
`<exp>/<dataset>/runtime/`, named `runtime_<alg>_CV_<fold>.txt`,
containing the elapsed wall-clock seconds string; the exploratory phase
writes the single file `runtime_exploratory.txt` under the same
directory with the same kind of payload. -/
theorem runtime_record_unique (fi : FeatureImportance) (algorithm : String)
    (o : FIOracle) (d f : String)
    (hd : fi.dataset_name = some d) (hf : fi.cv_count = some f)
    (writes : List FileWrite)
    (hrun : FeatureImportance.run fi algorithm o = (writes, none)) :
    writes.filter (inRuntimeDir fi.experiment_path d)
        = [⟨[fi.experiment_path, d, "runtime",
             "runtime_" ++ alg_tag algorithm ++ "_CV_" ++ f ++ ".txt"], o.elapsed⟩]
    ∧ (∀ expPath name elapsed,
        EDAJob.save_runtime_writes expPath name elapsed
          = [⟨[expPath, name, "runtime", "runtime_exploratory.txt"], elapsed⟩]) := by
  constructor
  · rw [fi_run_success fi algorithm o d f hd hf writes hrun]
    rw [List.filter_cons, List.filter_cons, List.filter_cons, List.filter_cons]
    rw [inRuntimeDir_output_path, inRuntimeDir_pickle_path,
      inRuntimeDir_runtime_path, inRuntimeDir_marker_path]
    rfl
  · intro expPath name elapsed
    rfl

theorem runtime_record_unique_witness :
    (FeatureImportance.run fi_example "MS" fi_oracle_ok).1.filter (inRuntimeDir "exp" "dsA")
      = [⟨["exp", "dsA", "runtime", "runtime_multisurf_CV_0.txt"], "12.5"⟩] :=
  (runtime_record_unique fi_example "MS" fi_oracle_ok "dsA" "0" rfl rfl
    (FeatureImportance.run fi_example "MS" fi_oracle_ok).1 rfl).1

/-! ### ReplicateJob.__init__ — algorithm exclusion -/

/-- Python `list.remove(x)`: removes the first occurrence; `none` stands
for the `ValueError` raised when the value is absent. -/
def pyListRemove (l : List String) (a : String) : Option (List String) :=
  if a ∈ l then some (l.erase a) else none

/-- The `algorithms is None` branch of `ReplicateJob.__init__`:
`self.algorithms = SUPPORTED_MODELS`, then for each name of `exclude` a
`try: self.algorithms.remove(...)` whose `except` branch merely
evaluates `Exception("Unknown algorithm in exclude: ...")` without
`raise`, so the loop always completes and no error ever escapes (the
error component of the result is always `none`).  `supported` abstracts
the `SUPPORTED_MODELS` list (`streamline/modeling/utils.py` is not
among the provided sources). -/
def ReplicateJob.init_algorithms_none (supported : List String)
    (exclude : Option (List String)) : List String × Option String :=
  match exclude with
  | none => (supported, none)
  | some ex =>
    (ex.foldl (fun acc algorithm =>
        match pyListRemove acc algorithm with
        | some l => l
        | none => acc) supported,
     none)

/-- C7 (code-bug evaluation): excluding a known algorithm removes it, but
an unknown algorithm name in `exclude` is not a fatal error — the
constructor finishes with the algorithm list unchanged and no exception
raised, because the `except` branch constructs the exception object and
never raises it. -/
theorem replicate_exclude_unknown_not_fatal :
    ReplicateJob.init_algorithms_none ["Logistic Regression", "Decision Tree"]
        (some ["Unknown Algorithm"])
      = (["Logistic Regression", "Decision Tree"], none)
    ∧ ReplicateJob.init_algorithms_none ["Logistic Regression", "Decision Tree"]
        (some ["Decision Tree"])
      = (["Logistic Regression"], none) := by
  constructor <;> rfl

/-! ### ReplicateJob.impute_rep_data -/

/-- The embedding of `ReplicateJob.impute_rep_data` over an abstract
dataframe type `DF`.  Both branches first fill categorical modes in
place on the argument (`fillCat`); `impute_rep_df` is initialised to
`None`; only the multiple-imputation branch rebinds it to the imputer's
result (`multiImpute`); the simple-median branch fills medians in place
(`fillMedian`) and leaves the return variable at `None`.  The result is
the final state of the argument dataframe paired with the returned
value. -/
def ReplicateJob.impute_rep_data (DF : Type) (multi_impute : Bool)
    (cv_rep_data : DF) (fillCat multiImpute fillMedian : DF → DF) :
    DF × Option DF :=
  let d := fillCat cv_rep_data
  if multi_impute then (d, some (multiImpute d))
  else (fillMedian d, none)

/-- The imputation assignment inside `ReplicateJob.run`'s CV loop:
`cv_rep_data = self.impute_rep_data(cv_count, cv_rep_data, ...)` when
`impute_data` is set, rebinding the loop's working dataframe to the
returned value (a dataframe, or Python `None`). -/
def ReplicateJob.run_cv_rep_data_after_impute (DF : Type)
    (impute_data multi_impute : Bool) (rep_copy : DF)
    (fillCat multiImpute fillMedian : DF → DF) : Option DF :=
  if impute_data then
    (ReplicateJob.impute_rep_data DF multi_impute rep_copy
      fillCat multiImpute fillMedian).2
  else some rep_copy

/-- C9: with `multi_impute` False, `impute_rep_data` returns `None` —
only the multiple-imputation branch ever assigns the return variable,
the median branch mutates its argument in place — so `run` invoked with
`impute_data` True and `multi_impute` False continues each CV iteration
with `cv_rep_data` equal to `None`. -/
theorem impute_rep_data_returns_none (DF : Type) (rep_copy : DF)
    (fillCat multiImpute fillMedian : DF → DF) :
    (ReplicateJob.impute_rep_data DF false rep_copy
        fillCat multiImpute fillMedian).2 = none
    ∧ ReplicateJob.run_cv_rep_data_after_impute DF true false rep_copy
        fillCat multiImpute fillMedian = none := by
  constructor <;> rfl

/-! ### EDAJob.__init__ — exploration and plot validation -/

/-- The `explorations_list` literal of `EDAJob.__init__`. -/
def explorations_list : List String :=
  ["Describe", "Differentiate", "Univariate Analysis"]

/-- The `plot_list` literal of `EDAJob.__init__` (bound but never
consulted by the validation loops). -/
def plot_list : List String :=
  ["Describe", "Univariate Analysis", "Feature Correlation"]

/-- The validation tail of `EDAJob.__init__`: `None` arguments take the
default lists; then two loops raise for unknown entries — but both
loops iterate over `self.explorations`, so the `plots` argument is
never examined.  The result is the message of the first exception
raised, or `none` when the constructor completes. -/
def EDAJob.init_validation (explorations plots : Option (List String)) :
    Option String :=
  let expl := explorations.getD explorations_list
  let _plots := plots.getD plot_list
  match expl.find? (fun x => !(explorations_list.contains x)) with
  | some x => some ("Exploration " ++ x ++ " is not known/implemented")
  | none =>
    match expl.find? (fun x => !(explorations_list.contains x)) with
    | some x => some ("Plot " ++ x ++ " is not known/implemented")
    | none => none

/-- C10: the constructor raises exactly when some exploration entry is
outside the known list (and then with the first loop's "Exploration"
message), and it performs no validation of `plots`: the outcome is the
same for any two `plots` arguments. -/
theorem eda_init_validation_spec (explorations : List String)
    (plots plots' : Option (List String)) :
    (EDAJob.init_validation (some explorations) plots
      = EDAJob.init_validation (some explorations) plots')
    ∧ (EDAJob.init_validation (some explorations) plots = none
        ↔ ∀ x ∈ explorations, x ∈ explorations_list)
    ∧ (∀ msg, EDAJob.init_validation (some explorations) plots = some msg →
        ∃ x ∈ explorations, x ∉ explorations_list
          ∧ msg = "Exploration " ++ x ++ " is not known/implemented") := by
  cases hfind : explorations.find? (fun x => !(explorations_list.contains x)) with
  | none =>
    have hall : ∀ x ∈ explorations, x ∈ explorations_list := by
      intro x hx
      have hnp := List.find?_eq_none.mp hfind x hx
      simpa using hnp
    refine ⟨rfl, ?_, ?_⟩
    · simp only [EDAJob.init_validation, Option.getD_some, hfind]
      exact ⟨fun _ => hall, fun _ => trivial⟩
    · intro msg h
      simp only [EDAJob.init_validation, Option.getD_some, hfind] at h
      exact Option.noConfusion h
  | some x =>
    have hmem : x ∈ explorations := List.mem_of_find?_eq_some hfind
    have hx : x ∉ explorations_list := by
      have hp := List.find?_some hfind
      simpa using hp
    refine ⟨rfl, ?_, ?_⟩
    · constructor
      · intro h
        simp only [EDAJob.init_validation, Option.getD_some, hfind] at h
        exact Option.noConfusion h
      · intro hall
        exact absurd (hall x hmem) hx
    · intro msg h
      refine ⟨x, hmem, hx, ?_⟩
      simp only [EDAJob.init_validation, Option.getD_some, hfind,
        Option.some.injEq] at h
      exact h.symm

end Streamline
